import Mathlib

/-!
# Verification of the wikisource-poem-scraper crawl/classify/extract pipeline

Shallow embedding of the Python sources in `src/poemscraper/` (classifier.py,
core.py, processors.py, database.py, parsing.py), together with proofs about
the claims of the natural-language specification.

Conventions:
* Python dicts with fixed keys become structures; `None` becomes `Option`.
* BeautifulSoup documents are modelled by the mutual inductive `Node`/`NodeList`
  rose tree (mutual rather than nested so that all recursions are structural
  and evaluate inside the kernel).
* Exceptions become `Except`/explicit error components of the state.
-/

namespace PoemScraper

/-! ## HTML document model (BeautifulSoup trees)

A parsed HTML document is a tree of element tags (with an attribute list) and
text nodes.  `NodeList` is a specialised list so that the mutual recursion
with `Node` stays structural. -/

mutual

inductive Node where
  | text (s : String)
  | tag (name : String) (attrs : List (String × String)) (children : NodeList)
deriving DecidableEq, Repr

inductive NodeList where
  | nil
  | cons (n : Node) (rest : NodeList)
deriving DecidableEq, Repr

end

def NodeList.ofList : List Node → NodeList
  | [] => .nil
  | n :: rest => .cons n (NodeList.ofList rest)

/-- Convenience constructor: an element tag with a plain list of children. -/
def tagN (name : String) (attrs : List (String × String)) (cs : List Node) : Node :=
  .tag name attrs (NodeList.ofList cs)

mutual

/-- All descendant nodes of a node, in document (pre-)order, excluding the
node itself.  Mirrors iteration over a BeautifulSoup tag's `.descendants`. -/
def Node.descendants : Node → List Node
  | .text _ => []
  | .tag _ _ cs => NodeList.descendantsL cs

def NodeList.descendantsL : NodeList → List Node
  | .nil => []
  | .cons n rest => n :: Node.descendants n ++ NodeList.descendantsL rest

end

mutual

/-- All descendants paired with their ancestor chain (nearest ancestor first).
`anc` is the chain above the node being expanded.  Models BeautifulSoup's
`.descendants` together with `find_parents`. -/
def Node.descWithAnc : Node → List Node → List (Node × List Node)
  | .text _, _ => []
  | .tag nm a_ cs, anc => NodeList.descWithAncL cs (Node.tag nm a_ cs :: anc)

def NodeList.descWithAncL : NodeList → List Node → List (Node × List Node)
  | .nil, _ => []
  | .cons n rest, anc =>
      (n, anc) :: Node.descWithAnc n anc ++ NodeList.descWithAncL rest anc

end

/-! ### String helpers

Models of the Python / BeautifulSoup string operations used by the sources,
implemented over `List Char` so that they evaluate inside the kernel. -/

/-- Python `str.strip()`: drop leading and trailing whitespace. -/
def pyStrip (s : String) : String :=
  String.mk ((s.toList.dropWhile Char.isWhitespace).reverse.dropWhile
    Char.isWhitespace).reverse

/-- Split a character list on a separator character (Python `str.split(sep)`
for a one-character separator). -/
def splitOnChar (c : Char) : List Char → List (List Char)
  | [] => [[]]
  | x :: rest =>
      let r := splitOnChar c rest
      if x = c then [] :: r
      else
        match r with
        | [] => [[x]]
        | h :: t => (x :: h) :: t

/-- Python `s.split(sep)[-1]` for a one-character separator. -/
def lastSegment (c : Char) (s : String) : String :=
  String.mk ((splitOnChar c s.toList).getLastD [])

/-- Python `s.split(sep)[0]` for a one-character separator. -/
def firstSegment (c : Char) (s : String) : String :=
  String.mk ((splitOnChar c s.toList).headD [])

mutual

/-- The stripped text fragments of all text descendants, dropping
whitespace-only fragments: the pieces joined by `get_text(strip=True)`. -/
def Node.strippedTexts : Node → List String
  | .text s => if pyStrip s = "" then [] else [pyStrip s]
  | .tag _ _ cs => NodeList.strippedTextsL cs

def NodeList.strippedTextsL : NodeList → List String
  | .nil => []
  | .cons n rest => Node.strippedTexts n ++ NodeList.strippedTextsL rest

end

/-- `tag.get_text(strip=True)`: stripped text fragments concatenated. -/
def Node.getTextStrip (n : Node) : String :=
  String.mk (n.strippedTexts.flatMap String.toList)

def Node.isTag : Node → Bool
  | .text _ => false
  | .tag _ _ _ => true

def Node.name : Node → String
  | .text _ => ""
  | .tag nm _ _ => nm

/-- `tag.get(key)`: attribute lookup. -/
def Node.attr : Node → String → Option String
  | .text _, _ => none
  | .tag _ a_ _, k => (a_.find? (fun p => p.1 = k)).map (·.2)

/-- `tag.get(key, "")`. -/
def Node.attrD (n : Node) (k : String) : String :=
  (n.attr k).getD ""

def Node.childList : Node → List Node
  | .text _ => []
  | .tag _ _ cs =>
      let rec toL : NodeList → List Node
        | .nil => []
        | .cons n rest => n :: toL rest
      toL cs

/-- CSS class membership: the space-separated `class` attribute contains `cls`. -/
def Node.hasClass (n : Node) (cls : String) : Bool :=
  (splitOnChar ' ' (n.attrD "class").toList).contains cls.toList

/-- Substring containment (Python `needle in hay`). -/
def strContains (hay needle : String) : Bool :=
  decide (needle.toList <:+: hay.toList)

/-- Python `str.startswith`. -/
def pyStartsWith (s pre : String) : Bool :=
  pre.toList.isPrefixOf s.toList

/-- First descendant tag satisfying `p`, in document order: `tag.find(function)`.
BeautifulSoup only passes `Tag` elements to a filter function. -/
def Node.findP (n : Node) (p : Node → Bool) : Option Node :=
  n.descendants.find? (fun c => c.isTag && p c)

/-- First descendant tag with the given name: `tag.find("img")` etc. -/
def Node.findNamed (n : Node) (nm : String) : Option Node :=
  n.findP (fun c => c.name = nm)

/-- All descendant tags whose name is in `names`: `tag.find_all([...])`. -/
def Node.findAllNames (n : Node) (names : List String) : List Node :=
  n.descendants.filter (fun c => c.isTag && names.contains c.name)

/-- Direct children tags with the given name: `find_all(name, recursive=False)`. -/
def Node.childrenNamed (n : Node) (nm : String) : List Node :=
  n.childList.filter (fun c => c.isTag && c.name = nm)

/-- BeautifulSoup `tag.string`: the contained string when the tag has exactly
one child and it is a text node (the single-`NavigableString` case;
the recursive single-tag-child chaining of `.string` is not needed by the
pages modelled here). -/
def Node.soleString : Node → Option String
  | .tag _ _ (.cons (.text s) .nil) => some s
  | _ => none

/-! ## Data model (schemas.py, api_client.py page data) -/

/-- classifier.py `PageType`: granular page-role enumeration. -/
inductive PageType where
  | POEM
  | POETIC_COLLECTION
  | MULTI_VERSION_HUB
  | AUTHOR
  | DISAMBIGUATION
  | OTHER
  | SECTION_TITLE
deriving DecidableEq, Repr

/-- One revision of a page (`rvprop=ids|content` slice used by the code). -/
structure Revision where
  revid : Nat
  content : String
deriving DecidableEq, Repr

/-- The page-data dict returned by `WikiAPIClient.get_resolved_page_data`:
metadata, categories (raw titles such as "Catégorie:Recueils de poèmes"),
revisions and the canonical URL. -/
structure PageData where
  pageid : Nat
  ns : Int
  title : String
  categories : List String
  revisions : List Revision
  fullurl : Option String
deriving DecidableEq, Repr

/-- The projections of an `mwparserfromhell` template parameter value that the
code uses: the raw text (`str(value)`), the titles of wikilinks inside it
(`filter_wikilinks`), and the markup-stripped text (`strip_code`). -/
structure WikiValue where
  raw : String
  wikilinks : List String
  stripped : String
deriving DecidableEq, Repr

/-- A wikitext template: name plus named/positional parameters (positional
parameters are keyed by their index as a string, as mwparserfromhell does). -/
structure WTemplate where
  name : String
  params : List (String × WikiValue)
deriving DecidableEq, Repr

/-- A parsed wikitext AST, reduced to the template list the code inspects. -/
structure Wikicode where
  templates : List WTemplate
deriving DecidableEq, Repr

/-- One `<poem>` block found in the rendered markup: its opening tag and its
stanzas (groups of raw verse lines separated by blank lines). -/
structure PoemBlock where
  marker : String
  stanzas : List (List String)
deriving DecidableEq, Repr

/-- A BeautifulSoup document: the element tree plus the poem blocks its raw
markup contains (the two views of the same object the code consumes). -/
structure Markup where
  dom : Node
  poemBlocks : List PoemBlock
deriving DecidableEq, Repr

/-- schemas.py `PoemStructure`. -/
structure PoemStructure where
  stanzas : List (List String)
  raw_markers : List String
deriving DecidableEq, Repr

/-- Keep a verse if nonempty after stripping (`line.strip()`), per stanza. -/
def cleanStanza (st : List String) : List String :=
  (st.map pyStrip).filter (fun v => v ≠ "")

namespace PoemParser

/-- Modelled from the spec: `PoemParser.extract_poem_structure` is imported
from `.parsing` by classifier.py and processors.py but absent from `src/`
(parsing.py only contains the wikitext analogue `WikitextParser`, and
tests/test_parsing.py exercises `PoemParser` with the same behaviour).  Per
the spec it locates verse/stanza structure from the rendered markup and
"fails if none found or all stanzas are empty": blocks are scanned in order,
verses are stripped and empty verses and stanzas dropped, and `None` is
returned when there is no block at all or every stanza is empty. -/
def extract_poem_structure (m : Markup) : Option PoemStructure :=
  if m.poemBlocks.isEmpty then none
  else
    let allStanzas :=
      m.poemBlocks.flatMap (fun b => (b.stanzas.map cleanStanza).filter (fun st => st ≠ []))
    if allStanzas.isEmpty then none
    else some { stanzas := allStanzas, raw_markers := m.poemBlocks.map (·.marker) }

/-- Modelled from the spec: `PoemParser.create_normalized_text`, mirrored from
`WikitextParser.create_normalized_text` (parsing.py) — verses joined by a
newline, stanzas joined by a blank line. -/
def create_normalized_text (structure_ : PoemStructure) : String :=
  String.intercalate "\n\n" (structure_.stanzas.map (String.intercalate "\n"))

end PoemParser

/-! ## Structural classifier (classifier.py) -/

/-- Python `str.capitalize()` (ASCII case mapping suffices for the
prefix-type strings it is applied to). -/
def pyCapitalize (s : String) : String :=
  match s.toList with
  | [] => ""
  | c :: rest => String.mk (c.toUpper :: rest.map Char.toLower)

/-- classifier.py `get_localized_prefix` (also api_client.py
`get_localized_category_prefix` restricted to fr/en behaves this way for
"category"). -/
def getLocalizedPfx (lang ptype : String) : String :=
  if lang = "fr" then
    if ptype = "category" then "Catégorie"
    else if ptype = "author" then "Auteur"
    else pyCapitalize ptype
  else if lang = "en" then
    if ptype = "category" then "Category"
    else if ptype = "author" then "Author"
    else pyCapitalize ptype
  else pyCapitalize ptype

/-- Case-folding for the case-insensitive regex search `re.compile(r"Éditions",
re.I)`: ASCII letters are lowered and the accented capital is folded. -/
def foldChar (c : Char) : Char :=
  if c = 'É' then 'é' else c.toLower

/-- Case-insensitive substring search (`regex.search` with `re.I`). -/
def containsCI (hay needle : String) : Bool :=
  decide ((needle.toList.map foldChar) <:+: (hay.toList.map foldChar))

/-- Attribute regex `^d:Q\d+$` used for the Wikidata structured-data link. -/
def isWikidataQid (s : String) : Bool :=
  pyStartsWith s "d:Q" &&
    (let rest := s.toList.drop 3
     !rest.isEmpty && rest.all Char.isDigit)

/-- `soup.select("ul > li")` is nonempty: some `ul` tag has a direct `li`
child. -/
def Node.hasUlLiPair (n : Node) : Bool :=
  n.descendants.any (fun t => t.isTag && t.name = "ul" && !(t.childrenNamed "li").isEmpty)

/-- The category names of a page: `{c["title"].split(":")[-1] for c in
page_data.get("categories", [])}`. -/
def PageData.catNames (pd : PageData) : List String :=
  pd.categories.map (lastSegment ':')

/-- classifier.py `PageClassifier._get_page_signals`, one boolean per signal. -/
structure Signals where
  is_recueil_cat : Bool
  is_multiversion_cat : Bool
  has_donnees_structurees : Bool
  has_editions_header : Bool
  has_ws_summary : Bool
  has_toc : Bool
  has_poem_structure : Bool
deriving DecidableEq, Repr

def getPageSignals (pd : PageData) (soup : Markup) : Signals where
  is_recueil_cat := pd.catNames.contains "Recueils de poèmes"
  is_multiversion_cat := pd.catNames.contains "Éditions multiples"
  has_donnees_structurees :=
    (soup.dom.findP (fun t => t.name = "a" &&
      (match t.attr "title" with
       | some s => isWikidataQid s
       | none => false))).isSome
  has_editions_header :=
    (soup.dom.findP (fun t => (t.name = "h2" || t.name = "h3") &&
      (match t.soleString with
       | some s => containsCI s "Éditions"
       | none => false))).isSome
  has_ws_summary :=
    (soup.dom.findP (fun t => t.name = "div" && t.hasClass "ws-summary")).isSome
  has_toc :=
    (soup.dom.findP (fun t => t.name = "div" && t.attr "id" = some "toc")).isSome
  has_poem_structure := (PoemParser.extract_poem_structure soup).isSome

/-- classifier.py `PageClassifier.classify`.  The `wikicode` argument is
stored by `PageClassifier.__init__` but never consulted by `classify` —
it is kept in the signature to mirror the source. -/
def classify (pd : PageData) (soup : Markup) (lang : String) (_wikicode : Wikicode) :
    PageType × String :=
  if pd.ns ≠ 0 then
    if pyStartsWith pd.title (getLocalizedPfx lang "author" ++ ":") then
      (.AUTHOR, "is_author_page")
    else
      (.OTHER, "is_other_namespace")
  else
    let sg := getPageSignals pd soup
    if sg.is_recueil_cat then (.POETIC_COLLECTION, "is_recueil_cat")
    else if sg.is_multiversion_cat then (.MULTI_VERSION_HUB, "is_multiversion_cat")
    else if sg.has_ws_summary then
      if sg.has_donnees_structurees then
        (.MULTI_VERSION_HUB, "has_donnees_structurees and has_ws_summary")
      else (.POETIC_COLLECTION, "has_ws_summary")
    else if sg.has_toc then
      if sg.has_donnees_structurees then
        (.MULTI_VERSION_HUB, "has_donnees_structurees and has_toc")
      else (.POETIC_COLLECTION, "has_toc")
    else if sg.has_editions_header then
      if sg.has_donnees_structurees then
        (.MULTI_VERSION_HUB, "has_donnees_structurees and has_editions_header")
      else (.POETIC_COLLECTION, "has_editions_header")
    else if sg.has_poem_structure then (.POEM, "has_poem_structure")
    else if sg.has_donnees_structurees && Node.hasUlLiPair soup.dom then
      (.MULTI_VERSION_HUB, "has_donnees_structurees and has_list_items")
    else (.OTHER, "no_signals_matched")

/-! ## Ordered collection-link extraction (classifier.py 158-273) -/

/-- `PageClassifier.__init__`: `internal_prefixes_to_ignore`. -/
def internalPfxsToIgnore (lang : String) : List String :=
  [getLocalizedPfx lang "category", getLocalizedPfx lang "author",
   "Portail", "Aide", "Wikisource", "Fichier", "Spécial",
   "Livre", "Discussion", "Modèle", "Projet"]

/-- classifier.py `PageClassifier._is_valid_poem_link`. -/
def isValidPoemLink (selfTitle : String) (pfxs : List String) (link : Node) : Bool :=
  if !link.isTag || link.name ≠ "a" then false
  else
    let href := link.attrD "href"
    let title := link.attrD "title"
    if title = "" || href = "" then false
    else if !pyStartsWith href "/wiki/" || strContains href "&redlink=1" ||
        strContains href "action=edit" then false
    else if pfxs.any (fun p => pyStartsWith title (p ++ ":")) then false
    else if pyStartsWith href "#" then false
    else if (link.findNamed "img").isSome then false
    else if title = selfTitle then false
    else true

/-- classifier.py `PageClassifier._is_section_title_element`. -/
def isSectionTitleElement (selfTitle : String) (pfxs : List String) (el : Node) : Bool :=
  if !el.isTag then false
  else if ["h1", "h2", "h3", "h4", "h5", "h6"].contains el.name then true
  else if el.name = "dt" then true
  else if (el.findP (isValidPoemLink selfTitle pfxs)).isSome then false
  else
    let text := el.getTextStrip
    if text = "" || text.length ≤ 1 || text.length > 150 then false
    else if (el.findP (fun t => ["b", "strong", "i", "em"].contains t.name)).isSome then true
    else if ["li", "p"].contains el.name then true
    else false

/-- The inner loop over a list container's direct `li`/`dd` items
(classifier.py 241-254), threading `last_added_title`; returns the items
emitted and the updated `last_added_title`. -/
def listItemsLoop (selfTitle : String) (pfxs : List String) :
    List Node → Option String → List (String × PageType) × Option String
  | [], last => ([], last)
  | item :: rest, last =>
      let link? := item.findP (isValidPoemLink selfTitle pfxs)
      let hasLinkTitle : Bool :=
        match link? with
        | some l => l.attrD "title" != ""
        | none => false
      if hasLinkTitle then
        let title := (link?.getD (Node.text "")).attrD "title"
        if some title ≠ last then
          let (tl, last') := listItemsLoop selfTitle pfxs rest (some title)
          ((title, PageType.POEM) :: tl, last')
        else listItemsLoop selfTitle pfxs rest last
      else if isSectionTitleElement selfTitle pfxs item then
        let t := item.getTextStrip
        if some t ≠ last then
          let (tl, last') := listItemsLoop selfTitle pfxs rest (some t)
          ((t, PageType.SECTION_TITLE) :: tl, last')
        else listItemsLoop selfTitle pfxs rest last
      else listItemsLoop selfTitle pfxs rest last

/-- The main candidate-element loop of `extract_ordered_collection_links`
(classifier.py 226-263).  Each candidate carries its ancestor chain so the
`find_parents(['ul','ol','dl'])` guard can be modelled; that guard compares
ancestors to the element with BeautifulSoup's structural `==`, which a strict
ancestor can never satisfy, so it never skips anything. -/
def extractLoop (selfTitle : String) (pfxs : List String) :
    List (Node × List Node) → Option String → List (String × PageType)
  | [], _ => []
  | (el, anc) :: rest, lastAdded =>
      if (anc.filter (fun a => ["ul", "ol", "dl"].contains a.name)).any
          (fun a => decide (a = el)) then
        extractLoop selfTitle pfxs rest lastAdded
      else if isSectionTitleElement selfTitle pfxs el then
        let t := el.getTextStrip
        if some t ≠ lastAdded then
          (t, PageType.SECTION_TITLE) :: extractLoop selfTitle pfxs rest (some t)
        else extractLoop selfTitle pfxs rest lastAdded
      else if ["ul", "ol", "dl"].contains el.name then
        let itemTag := if el.name = "dl" then "dd" else "li"
        let (emitted, last') := listItemsLoop selfTitle pfxs (el.childrenNamed itemTag) lastAdded
        emitted ++ extractLoop selfTitle pfxs rest last'
      else
        match el.findP (isValidPoemLink selfTitle pfxs) with
        | some link =>
            if (link.attrD "title") ≠ "" then
              let title := link.attrD "title"
              if some title ≠ lastAdded then
                (title, PageType.POEM) :: extractLoop selfTitle pfxs rest (some title)
              else extractLoop selfTitle pfxs rest lastAdded
            else extractLoop selfTitle pfxs rest lastAdded
        | none => extractLoop selfTitle pfxs rest lastAdded

/-- The ordered items before the final unique-title pass (classifier.py up to
line 263): locate `.mw-parser-output`, enumerate candidate containers in
document order, and run the main loop. -/
def extractOrderedRaw (selfTitle : String) (pfxs : List String) (soupDom : Node) :
    List (String × PageType) :=
  match (soupDom.descWithAnc []).find? (fun p => p.1.isTag && p.1.hasClass "mw-parser-output") with
  | none => []
  | some (ca, caAnc) =>
      let cands := (ca.descWithAnc caAnc).filter
        (fun p => p.1.isTag &&
          ["h1", "h2", "h3", "h4", "p", "ul", "ol", "dl", "div"].contains p.1.name)
      extractLoop selfTitle pfxs cands none

/-- The final pass of `extract_ordered_collection_links` (classifier.py
265-271): keep only the first occurrence of each title. -/
def dedupKeepFirst : List (String × PageType) → List String → List (String × PageType)
  | [], _ => []
  | (t, ty) :: rest, seen =>
      if seen.contains t then dedupKeepFirst rest seen
      else (t, ty) :: dedupKeepFirst rest (t :: seen)

/-- classifier.py `PageClassifier.extract_ordered_collection_links`. -/
def extract_ordered_collection_links (selfTitle : String) (lang : String) (soupDom : Node) :
    List (String × PageType) :=
  dedupKeepFirst (extractOrderedRaw selfTitle (internalPfxsToIgnore lang) soupDom) []

/-! ## Collection schemas (schemas.py) -/

/-- schemas.py `PoemInfo`. -/
structure PoemInfo where
  title : String
  page_id : Nat
  url : String
deriving DecidableEq, Repr

/-- schemas.py `Section`. -/
structure Section where
  title : String
  poems : List PoemInfo := []
deriving DecidableEq, Repr

/-- schemas.py `CollectionComponent = Union[Section, PoemInfo]`. -/
inductive CollectionComponent where
  | sec (s : Section)
  | poemI (p : PoemInfo)
deriving DecidableEq, Repr

/-- schemas.py `Collection`. -/
structure Collection where
  page_id : Nat
  title : String
  author : Option String := none
  url : String
  content : List CollectionComponent := []
deriving DecidableEq, Repr

/-- schemas.py `PoemMetadata` (also the shape of the metadata dicts the
processor builds: absent keys are `none`). -/
structure PoemMetadata where
  author : Option String := none
  publication_date : Option String := none
  source_collection : Option String := none
  publisher : Option String := none
  translator : Option String := none
deriving DecidableEq, Repr

/-- The hub-context dict `{"title": ..., "page_id": ...}` built in core.py. -/
structure HubInfo where
  title : String
  page_id : Nat
deriving DecidableEq, Repr

/-- schemas.py `PoemSchema` (the `ExtractedPoem` record of the spec).  The
Python field `structure` is called `structure_` because `structure` is a
Lean keyword. -/
structure PoemSchema where
  page_id : Nat
  revision_id : Nat
  title : String
  language : String
  wikisource_url : String
  collection_page_id : Option Nat := none
  collection_title : Option String := none
  section_title : Option String := none
  poem_order : Option Nat := none
  hub_title : Option String := none
  hub_page_id : Nat
  metadata : PoemMetadata
  structure_ : PoemStructure
  collection_structure : Option Collection := none
  normalized_text : String
  raw_wikitext : String
  checksum_sha256 : String
  extraction_timestamp : Nat
deriving DecidableEq, Repr

/-! ## Content extractor (processors.py) -/

/-- Stand-in for `hashlib.sha256(wikitext.encode()).hexdigest()`: an
injective, deterministic function of the input text.  No claim here depends
on the digest's value, so the cryptographic permutation is not modelled. -/
def sha256Hex (s : String) : String := "sha256:" ++ s

/-- `dict.setdefault`: set only when absent. -/
def setdefaultO (cur : Option String) (v : String) : Option String :=
  match cur with
  | some x => some x
  | none => some v

/-- Python `str.lower()` restricted to the characters occurring in the
template names the code matches (ASCII letters plus the accented capital). -/
def pyLower (s : String) : String := String.mk (s.toList.map foldChar)

/-- The per-`itemprop` value computation of
`PoemProcessor._extract_html_metadata`. -/
def itempropValue (dom : Node) (prop : String) : Option String :=
  match dom.findP (fun t => t.attr "itemprop" = some prop) with
  | none => none
  | some element =>
      let value :=
        if prop = "isPartOf" then
          match element.findNamed "a" with
          | some linkTag =>
              match linkTag.findP (fun t =>
                  t.name = "span" && t.attr "itemprop" = some "name") with
              | some nameSpan => nameSpan.getTextStrip
              | none => linkTag.getTextStrip
          | none => ""
        else ""
      let value :=
        if value = "" then
          if element.getTextStrip ≠ "" then element.getTextStrip
          else pyStrip (element.attrD "content")
        else value
      if value = "" then none else some value

/-- processors.py `PoemProcessor._extract_html_metadata`. -/
def extractHtmlMetadata (dom : Node) : PoemMetadata where
  author := itempropValue dom "author"
  publication_date := itempropValue dom "datePublished"
  source_collection := itempropValue dom "isPartOf"
  publisher := itempropValue dom "publisher"
  translator := itempropValue dom "translator"

/-- processors.py `PoemProcessor._extract_wikitext_metadata`: a `setdefault`
fold over the templates of the parsed wikitext. -/
def extractWikitextMetadata (wc : Wikicode) : PoemMetadata :=
  wc.templates.foldl
    (fun md tpl =>
      let nm := pyLower (pyStrip tpl.name)
      let get? := fun (k : String) => (tpl.params.find? (fun p => p.1 = k)).map (·.2)
      let md :=
        if nm = "auteur" || nm = "author" then
          match get? "1" with
          | some v => { md with author := setdefaultO md.author (pyStrip v.raw) }
          | none => md
        else md
      let md :=
        if nm = "titre" then
          let md :=
            match get? "auteur" with
            | some v => { md with author := setdefaultO md.author (pyStrip v.raw) }
            | none => md
          match get? "recueil" with
          | some v =>
              { md with source_collection := setdefaultO md.source_collection (pyStrip v.raw) }
          | none => md
        else md
      if nm = "infoédit" then
        let md :=
          match get? "AUTEUR" with
          | some v =>
              let nmv :=
                match v.wikilinks with
                | w :: _ => pyStrip (lastSegment ':' w)
                | [] => pyStrip v.stripped
              { md with author := setdefaultO md.author nmv }
          | none => md
        let md :=
          match get? "ANNÉE" with
          | some v =>
              { md with publication_date := setdefaultO md.publication_date (pyStrip v.stripped) }
          | none => md
        match get? "RECUEIL" with
        | some v =>
            { md with source_collection := setdefaultO md.source_collection (pyStrip v.stripped) }
        | none => md
      else md)
    {}

/-- The dict merge `{**wikitext_meta, **html_meta}`: HTML values win. -/
def mergeMeta (w h : PoemMetadata) : PoemMetadata where
  author := h.author.orElse (fun _ => w.author)
  publication_date := h.publication_date.orElse (fun _ => w.publication_date)
  source_collection := h.source_collection.orElse (fun _ => w.source_collection)
  publisher := h.publisher.orElse (fun _ => w.publisher)
  translator := h.translator.orElse (fun _ => w.translator)

/-- The exceptions `PoemProcessor.process` can raise: `PoemParsingError`
(exceptions.py) for missing/empty poem structure, and the `KeyError`/
`IndexError` of `page_data["revisions"][0]` when no revision is present. -/
inductive ProcErr where
  | poemParsingError (msg : String)
  | keyError (msg : String)
deriving DecidableEq, Repr

/-- processors.py `PoemProcessor.process`.  `now` stands for
`datetime.now(timezone.utc)` at the extraction instant. -/
def PoemProcessor.process (pd : PageData) (soup : Markup) (lang : String)
    (wikicode : Wikicode) (hub_info : Option HubInfo)
    (collection_context : Option Collection) (order_in_collection : Option Nat)
    (section_title_in_collection : Option String)
    (is_first_poem_in_collection : Bool) (now : Nat) : Except ProcErr PoemSchema :=
  match pd.revisions with
  | [] => .error (.keyError "revisions")
  | rev0 :: _ =>
    let wikitext := rev0.content
    match PoemParser.extract_poem_structure soup with
    | none =>
        .error (.poemParsingError "Aucune structure de poeme trouvee dans le HTML ou contenu vide.")
    | some structure_ =>
      if structure_.stanzas.isEmpty then
        .error (.poemParsingError "Aucune structure de poeme trouvee dans le HTML ou contenu vide.")
      else
        let html_meta := extractHtmlMetadata soup.dom
        let wikitext_meta := extractWikitextMetadata wikicode
        let final0 := mergeMeta wikitext_meta html_meta
        let finalMeta :=
          if final0.source_collection.isNone && strContains pd.title "/" then
            let parentTitle := pyStrip (firstSegment '/' pd.title)
            if parentTitle.length < 70 then
              { final0 with source_collection := some parentTitle }
            else final0
          else final0
        let normalized := PoemParser.create_normalized_text structure_
        let (hub_title, hub_page_id) :=
          match hub_info with
          | some hi => (some hi.title, hi.page_id)
          | none => ((none : Option String), pd.pageid)
        let final_collection_page_id := collection_context.map (·.page_id)
        let final_collection_title :=
          match collection_context with
          | some cc => some cc.title
          | none => finalMeta.source_collection
        .ok
          { page_id := pd.pageid
            revision_id := rev0.revid
            title := pd.title
            language := lang
            wikisource_url :=
              pd.fullurl.getD
                ("https://" ++ lang ++ ".wikisource.org/?curid=" ++ toString pd.pageid)
            collection_page_id := final_collection_page_id
            collection_title := final_collection_title
            section_title := section_title_in_collection
            poem_order := order_in_collection
            hub_title := hub_title
            hub_page_id := hub_page_id
            metadata := finalMeta
            structure_ := structure_
            collection_structure :=
              if is_first_poem_in_collection then collection_context else none
            normalized_text := normalized
            raw_wikitext := wikitext
            checksum_sha256 := sha256Hex wikitext
            extraction_timestamp := now }

/-! ## Frontier manager and orchestrator (core.py) -/

/-- The `page_info` dict carried by queue items (`pageid` + `title` slice). -/
structure PageRef where
  pageid : Nat
  title : String
deriving DecidableEq, Repr

/-- The queue-item dict built by `_producer`, `_process_collection` and
`_enqueue_new_titles`.  In Python the `collection_context` entry references
the shared mutable `Collection`; here it is the value at submission time. -/
structure QueuePayload where
  page_info : PageRef
  parent_title : String
  author_cat : String
  hub_info : Option HubInfo := none
  collection_context : Option Collection := none
  order_in_collection : Option Nat := none
  section_title_in_collection : Option String := none
  is_first_poem_in_collection : Bool := false
deriving DecidableEq, Repr

/-- An item on the writer thread's synchronous queue: a `PoemSchema`, the
`None` sentinel, or any other object (`_sync_writer` checks `isinstance`). -/
inductive WriterMsg where
  | poem (p : PoemSchema)
  | raw (q : QueuePayload)
  | sentinel
deriving DecidableEq, Repr

inductive PyErr where
  | typeError (msg : String)
deriving DecidableEq, Repr

/-- The two queue objects available inside `ScraperOrchestrator.run`: the
frontier `asyncio.Queue` the consumers drain, and the synchronous
`queue.Queue` feeding the writer thread. -/
inductive QueueRef where
  | pageQ
  | writerQ
deriving DecidableEq, Repr

/-- Orchestrator state: the scheduled-or-processed id set, the frontier
queue, the writer queue, and the skip counter. -/
structure OrchState where
  scheduled_or_processed_ids : List Nat := []
  pageQueue : List QueuePayload := []
  writerQueue : List WriterMsg := []
  skipped_counter : Nat := 0
deriving DecidableEq, Repr

/-- `await queue.put(page_item)` as executed inside `_queue_page_if_new`
(core.py:142) for the queue object it was handed.  On the frontier
`asyncio.Queue` the coroutine completes and the item is enqueued.  When the
synchronous writer `queue.Queue` is passed instead, `queue.put(...)` places
the item (as a raw dict) and returns `None`, and `await None` then raises
`TypeError`. -/
def awaitQueuePut (q : QueueRef) (st : OrchState) (item : QueuePayload) :
    OrchState × Option PyErr :=
  match q with
  | .pageQ => ({ st with pageQueue := st.pageQueue ++ [item] }, none)
  | .writerQ =>
      ({ st with writerQueue := st.writerQueue ++ [.raw item] },
       some (.typeError "object NoneType cannot be used in await expression"))

/-- core.py `_queue_page_if_new` (the spec's `submit_if_new`), parameterised
by the queue object actually passed in.  The membership test and the set
insertion run with no intervening suspension point (the only `await` follows
the insertion), so under the cooperative scheduler every concurrent
interleaving of calls linearises to a sequence of these steps. -/
def queuePageIfNew (q : QueueRef) (st : OrchState) (item : QueuePayload) :
    OrchState × Except PyErr Bool :=
  let page_id := item.page_info.pageid
  if st.scheduled_or_processed_ids.contains page_id then (st, .ok false)
  else
    let st1 :=
      { st with scheduled_or_processed_ids := page_id :: st.scheduled_or_processed_ids }
    match awaitQueuePut q st1 item with
    | (st2, none) => (st2, .ok true)
    | (st2, some e) => (st2, .error e)

/-- A sequence of `submit_if_new` calls against the frontier queue, returning
the final state and each call's boolean result. -/
def runSubmits : OrchState → List QueuePayload → OrchState × List Bool
  | st, [] => (st, [])
  | st, it :: rest =>
      let (st1, res) := queuePageIfNew .pageQ st it
      let b := match res with | .ok v => v | .error _ => false
      let (st2, bs) := runSubmits st1 rest
      (st2, b :: bs)

/-- Append a poem to the current section: in `_process_collection` the
`current_section_obj` is the most recently appended `Section` inside
`collection_obj.content`, and `current_section_obj.poems.append(...)`
mutates it in place.  (The fallthrough cases are unreachable: a current
section exists exactly when the last component is that section.) -/
def appendToLastSection : List CollectionComponent → PoemInfo → List CollectionComponent
  | [], _ => []
  | [.sec s], p => [.sec { s with poems := s.poems ++ [p] }]
  | [c], _ => [c]
  | c :: rest, p => c :: appendToLastSection rest p

/-- Result of `_process_collection`: final orchestrator state, the collection
object as last mutated, the number of poems queued, and whether the loop was
aborted by an exception (caught by the `except Exception` at core.py:423). -/
structure CollLoopOut where
  st : OrchState
  collection : Collection
  poemCount : Nat
  aborted : Bool
deriving DecidableEq, Repr

/-- The ordered walk of `_process_collection` (core.py:381-419): maintain the
current section, append resolved poems to the collection structure, build
each queue payload with the running ordinal / current section / first flag,
and `_queue_page_if_new` it into the queue object `q` the caller passed. -/
def collLoop (q : QueueRef) (pageTitle author_cat : String) (hub_info : Option HubInfo)
    (lang : String) (resolved : List (String × PageRef)) :
    List (String × PageType) → OrchState → Collection → Option String → Nat → Bool →
    CollLoopOut
  | [], st, coll, _, counter, _ => ⟨st, coll, counter, false⟩
  | (title, itemType) :: rest, st, coll, curSec, counter, isFirst =>
      if itemType = PageType.SECTION_TITLE then
        let coll' := { coll with content := coll.content ++ [.sec { title := title }] }
        collLoop q pageTitle author_cat hub_info lang resolved rest st coll' (some title)
          counter isFirst
      else if itemType = PageType.POEM then
        match resolved.find? (fun p => p.1 = title) with
        | some (_, ref) =>
            let poem_info : PoemInfo :=
              { title := title, page_id := ref.pageid,
                url := "https://" ++ lang ++ ".wikisource.org/?curid=" ++ toString ref.pageid }
            let coll' :=
              match curSec with
              | some _ => { coll with content := appendToLastSection coll.content poem_info }
              | none => { coll with content := coll.content ++ [.poemI poem_info] }
            let payload : QueuePayload :=
              { page_info := ref
                parent_title := pageTitle
                author_cat := author_cat
                hub_info := hub_info
                collection_context := some coll'
                order_in_collection := some counter
                section_title_in_collection := curSec
                is_first_poem_in_collection := isFirst }
            match queuePageIfNew q st payload with
            | (st', .ok true) =>
                collLoop q pageTitle author_cat hub_info lang resolved rest st' coll' curSec
                  (counter + 1) false
            | (st', .ok false) =>
                collLoop q pageTitle author_cat hub_info lang resolved rest st' coll' curSec
                  counter isFirst
            | (st', .error _) => ⟨st', coll', counter, true⟩
        | none =>
            collLoop q pageTitle author_cat hub_info lang resolved rest st coll curSec
              counter isFirst
      else
        collLoop q pageTitle author_cat hub_info lang resolved rest st coll curSec
          counter isFirst

/-- core.py `_process_collection`, parameterised by the queue object the
caller passes as `page_queue` and by the title-resolution results of
`_resolve_titles_to_pages` (a Gateway call, external to this model). -/
def processCollection (q : QueueRef) (pd : PageData) (soupDom : Node)
    (author_cat : String) (hub_info : Option HubInfo) (lang : String)
    (resolved : List (String × PageRef)) (st : OrchState) : CollLoopOut :=
  let ordered := extract_ordered_collection_links pd.title lang soupDom
  let collection_obj : Collection :=
    { page_id := pd.pageid, title := pd.title, url := pd.fullurl.getD "",
      author := some (lastSegment ':' author_cat) }
  if ordered.isEmpty then ⟨st, collection_obj, 0, false⟩
  else collLoop q pd.title author_cat hub_info lang resolved ordered st collection_obj
    none 0 true

/-- The POETIC_COLLECTION dispatch of `_process_single_page`
(core.py:294-299): `_process_collection` is invoked with `writer_queue` as
its `page_queue` argument, then `skipped_counter` is incremented.  (The
second, condition-identical `elif` at core.py:301-306 is unreachable, and
the name `page_queue` it uses is not in `_process_single_page`'s scope at
all.) -/
def collectionBranch (pd : PageData) (soup : Markup) (author_cat : String)
    (hub_info : Option HubInfo) (lang : String) (resolved : List (String × PageRef))
    (st : OrchState) : OrchState :=
  let r := processCollection QueueRef.writerQ pd soup.dom author_cat hub_info lang resolved st
  { r.st with skipped_counter := r.st.skipped_counter + 1 }

/-- The POEM dispatch of `_process_single_page` (core.py:280-292):
`PoemProcessor.process`, then `_writer_put` on success, or — for the
`PoemParsingError` caught at core.py:290 — a log line and
`skipped_counter += 1`.  Any other exception propagates to the catch-all
handler at core.py:322. -/
def poemBranch (pd : PageData) (soup : Markup) (lang : String) (wikicode : Wikicode)
    (hub_info : Option HubInfo) (collection_context : Option Collection)
    (order_in_collection : Option Nat) (section_title_in_collection : Option String)
    (is_first_poem_in_collection : Bool) (now : Nat) (st : OrchState) :
    Except ProcErr OrchState :=
  match PoemProcessor.process pd soup lang wikicode hub_info collection_context
      order_in_collection section_title_in_collection is_first_poem_in_collection now with
  | .ok poem => .ok { st with writerQueue := st.writerQueue ++ [.poem poem] }
  | .error (.poemParsingError _) => .ok { st with skipped_counter := st.skipped_counter + 1 }
  | .error e => .error e

/-- What the writer thread durably produced: the record lines appended to
`poems.jsonl.gz`, the page ids that reached the sqlite index, the processed
counter, and the count of per-record persistence failures that were caught. -/
structure WriterResult where
  records : List PoemSchema
  indexedIds : List Nat
  processed_counter : Nat
  caughtErrors : Nat
deriving DecidableEq, Repr

/-- core.py `_sync_writer`, consuming the writer queue up to the `None`
sentinel.  For a `PoemSchema` the JSON line is written first; the following
call `self.db_manager.add_poem_index_sync(result, db_cursor)` names a method
`DatabaseManager` (database.py) does not define, so it raises
`AttributeError`, which the `except Exception` at core.py:538 swallows after
the record line was already written — the index is never updated and
`processed_counter` never increments.  Items that are not `PoemSchema`
instances fail the `isinstance` check and are dropped silently. -/
def syncWriter : List WriterMsg → WriterResult
  | [] => ⟨[], [], 0, 0⟩
  | .sentinel :: _ => ⟨[], [], 0, 0⟩
  | .poem p :: rest =>
      let r := syncWriter rest
      { r with records := p :: r.records, caughtErrors := r.caughtErrors + 1 }
  | .raw _ :: rest => syncWriter rest

/-! ## Gateway retry wrapper (core.py `_retry_call`) -/

/-- `self._net_retries` (core.py:76). -/
def netRetries : Nat := 2

/-- `self._backoff_base` (core.py:77), in seconds. -/
def backoffBase : ℚ := 1 / 2

/-- One attempt of the wrapped operation (`await asyncio.wait_for(...)`):
either a value or an exception (timeouts included). -/
inductive AttemptOutcome (α : Type) where
  | ok (a : α)
  | exc (msg : String)
deriving DecidableEq, Repr

/-- core.py `_retry_call`, unrolled from attempt number `attempt` with
`rem = _net_retries - attempt` retries remaining.  Returns the final result
(`none` after exhaustion — the function returns `None` instead of raising),
the number of attempts performed, and the list of backoff delays slept
between attempts. -/
def retryFrom (behavior : Nat → AttemptOutcome α) (attempt : Nat) :
    Nat → Option α × Nat × List ℚ
  | 0 =>
      match behavior attempt with
      | .ok a => (some a, 1, [])
      | .exc _ => (none, 1, [])
  | rem + 1 =>
      match behavior attempt with
      | .ok a => (some a, 1, [])
      | .exc _ =>
          let (res, n, ds) := retryFrom behavior (attempt + 1) rem
          (res, n + 1, backoffBase * 2 ^ attempt :: ds)

/-- core.py `_retry_call` applied to an operation whose `i`-th execution
behaves as `behavior i`. -/
def retryCall (behavior : Nat → AttemptOutcome α) : Option α × Nat × List ℚ :=
  retryFrom behavior 0 netRetries

/-! ## Persistence sink index insert (database.py) -/

/-- A row of the sqlite `poems` table (`page_id` is the `PRIMARY KEY`). -/
structure PoemRow where
  page_id : Nat
  title : String
  language : String
  author_id : Nat
  collection_id : Option Nat := none
  hub_id : Option Nat := none
  checksum_sha256 : String
  extraction_timestamp : String
  wikisource_url : String
deriving DecidableEq, Repr

/-- database.py `DatabaseManager.add_scraped_data_sync`, `Poem` branch: the
statement is `INSERT OR IGNORE INTO poems ...` — on a `page_id` primary-key
conflict the new row is discarded and the table unchanged. -/
def addScrapedPoemSync (tbl : List PoemRow) (r : PoemRow) : List PoemRow :=
  if tbl.any (fun row => row.page_id = r.page_id) then tbl else tbl ++ [r]

/-- Lookup in the poems table by primary key. -/
def lookupPoem (tbl : List PoemRow) (pid : Nat) : Option PoemRow :=
  tbl.find? (fun row => row.page_id = pid)

/-! ## Concrete pages used by the scenario theorems -/

/-- A rendered internal wiki link `<a href=... title=...>`. -/
def mkLink (t : String) (href : String) : Node :=
  tagN "a" [("href", href), ("title", t)] [.text t]

/-- Rendered markup of a collection page listing two poems. -/
def c1dom : Node :=
  tagN "[document]" [] [
    tagN "div" [("class", "mw-parser-output")] [
      tagN "ul" [] [
        tagN "li" [] [mkLink "Poem A" "/wiki/Poem_A"],
        tagN "li" [] [mkLink "Poem B" "/wiki/Poem_B"]
      ]
    ]
  ]

/-- Page data of the 2-poem collection page (curator-tagged as a collection). -/
def c1pd : PageData where
  pageid := 10
  ns := 0
  title := "Recueil"
  categories := ["Catégorie:Recueils de poèmes"]
  revisions := [⟨5, "recueil wikitext"⟩]
  fullurl := some "https://fr.wikisource.org/wiki/Recueil"

/-- Both poem titles resolve to page references. -/
def c1resolved : List (String × PageRef) :=
  [("Poem A", ⟨11, "Poem A"⟩), ("Poem B", ⟨12, "Poem B"⟩)]

/-- State when the collection page is dequeued: its own id is scheduled. -/
def c1st0 : OrchState := { scheduled_or_processed_ids := [10] }

/-- `_process_collection` run exactly as `_process_single_page` invokes it:
with the writer queue passed as `page_queue` (core.py:295). -/
def c1out : CollLoopOut :=
  processCollection QueueRef.writerQ c1pd c1dom "Catégorie:Poètes" none "fr" c1resolved c1st0

/-- Rendered markup of the interleaved headings/links collection page of the
spec's collection-ordering test. -/
def c6dom : Node :=
  tagN "[document]" [] [
    tagN "div" [("class", "mw-parser-output")] [
      tagN "h2" [] [.text "Book I"],
      tagN "ul" [] [
        tagN "li" [] [mkLink "Poem A" "/wiki/Poem_A"],
        tagN "li" [] [mkLink "Poem B" "/wiki/Poem_B"]
      ],
      tagN "h2" [] [.text "Book II"],
      tagN "ul" [] [
        tagN "li" [] [mkLink "Poem C" "/wiki/Poem_C"]
      ]
    ]
  ]

def c6pd : PageData where
  pageid := 20
  ns := 0
  title := "Recueil"
  categories := ["Catégorie:Recueils de poèmes"]
  revisions := [⟨6, "w"⟩]
  fullurl := some "https://fr.wikisource.org/wiki/Recueil"

def c6resolved : List (String × PageRef) :=
  [("Poem A", ⟨21, "Poem A"⟩), ("Poem B", ⟨22, "Poem B"⟩), ("Poem C", ⟨23, "Poem C"⟩)]

/-- `_process_collection` with the frontier queue object its `page_queue`
parameter is declared to take. -/
def c6out : CollLoopOut :=
  processCollection QueueRef.pageQ c6pd c6dom "Catégorie:Poètes" none "fr" c6resolved
    { scheduled_or_processed_ids := [20] }

/-- A main-namespace page carrying both the "multi-version" and the "poetic
collection" category tags, plus a summary-block structural signal. -/
def c3pd : PageData where
  pageid := 30
  ns := 0
  title := "Les Deux"
  categories := ["Catégorie:Recueils de poèmes", "Catégorie:Éditions multiples"]
  revisions := [⟨7, "w"⟩]
  fullurl := none

/-- A document containing a `ws-summary` block. -/
def wsSummaryDom : Node :=
  tagN "[document]" [] [
    tagN "div" [("class", "mw-parser-output")] [
      tagN "div" [("class", "ws-summary")] [.text "sommaire"]
    ]
  ]

/-- A main-namespace page whose wikitext carries the known disambiguation
template "homonymes", and whose markup has a summary block. -/
def c4pd : PageData where
  pageid := 40
  ns := 0
  title := "Ode"
  categories := []
  revisions := [⟨8, "\x7b\x7bhomonymes\x7d\x7d"⟩]
  fullurl := none

/-- The parsed wikitext of `c4pd`: the disambiguation template. -/
def c4wikicode : Wikicode := ⟨[{ name := "homonymes", params := [] }]⟩

/-- Two index rows for the same page identity with different payloads. -/
def c5row1 : PoemRow where
  page_id := 1
  title := "A"
  language := "fr"
  author_id := 100
  checksum_sha256 := "c1"
  extraction_timestamp := "t1"
  wikisource_url := "u1"

def c5row2 : PoemRow :=
  { c5row1 with title := "B", checksum_sha256 := "c2", extraction_timestamp := "t2" }

end PoemScraper

namespace PoemScraper

/-! ## Theorems for the claims -/

/-- C1: in the end-to-end collection scenario (a page classified
PoeticCollection with 2 resolvable poem links), the code does NOT submit the
children to the frontier queue: `_process_single_page` hands the synchronous
writer queue to `_process_collection`, the first `submit_if_new` raises
`TypeError` on `await queue.Queue.put`, the expansion aborts, the frontier
queue stays empty, and 0 (not 2) `ExtractedPoem` records are emitted. -/
theorem c1_collection_children_never_reach_frontier :
    (classify c1pd ⟨c1dom, []⟩ "fr" ⟨[]⟩).1 = PageType.POETIC_COLLECTION
    ∧ c1out.aborted = true
    ∧ c1out.st.pageQueue = []
    ∧ (syncWriter (c1out.st.writerQueue ++ [.sentinel])).records = []
    ∧ c1out.poemCount = 0 := by decide

/-- C6: on the synthetic interleaved collection page,
`extract_ordered_collection_links` returns the items in document order with
headings tagged `SECTION_TITLE`, and the submission walk of
`_process_collection` assigns ordinals 0,1,2 to Poem A,B,C with section
titles "Book I","Book I","Book II". -/
theorem c6_collection_ordering_invariant :
    extract_ordered_collection_links "Recueil" "fr" c6dom =
      [("Book I", PageType.SECTION_TITLE), ("Poem A", PageType.POEM),
       ("Poem B", PageType.POEM), ("Book II", PageType.SECTION_TITLE),
       ("Poem C", PageType.POEM)]
    ∧ c6out.st.pageQueue.map
        (fun p => (p.page_info.title, p.order_in_collection, p.section_title_in_collection)) =
      [("Poem A", some 0, some "Book I"), ("Poem B", some 1, some "Book I"),
       ("Poem C", some 2, some "Book II")] := by decide

/-- C3 counterexample: a main-namespace page carrying BOTH the
"multi-version" and the "poetic collection" category tags (plus a
summary-block signal) is classified `POETIC_COLLECTION`, not
`MULTI_VERSION_HUB`: `classify` tests the poetic-collection tag first
(classifier.py:95), so the multi-version tag does not win over it. -/
theorem c3_both_tags_counterexample :
    classify c3pd ⟨wsSummaryDom, []⟩ "fr" ⟨[]⟩ = (PageType.POETIC_COLLECTION, "is_recueil_cat")
    ∧ (classify c3pd ⟨wsSummaryDom, []⟩ "fr" ⟨[]⟩).1 ≠ PageType.MULTI_VERSION_HUB := by decide

/-- C3 (amended): for every main-namespace page whose category tags include
"multi-version" but NOT "poetic collection", `classify` returns
`MULTI_VERSION_HUB` with the reason citing the category tag, regardless of
any structural signals; the poetic-collection tag, when present, takes
precedence instead. -/
theorem c3_multiversion_tag_amended (pd : PageData) (soup : Markup) (lang : String)
    (wc : Wikicode) (h0 : pd.ns = 0)
    (h1 : pd.catNames.contains "Éditions multiples" = true)
    (h2 : pd.catNames.contains "Recueils de poèmes" = false) :
    classify pd soup lang wc = (PageType.MULTI_VERSION_HUB, "is_multiversion_cat") := by
  have hm1 : "Éditions multiples" ∈ pd.catNames := by simpa using h1
  have hm2 : "Recueils de poèmes" ∉ pd.catNames := by simpa using h2
  simp [classify, getPageSignals, h0, hm1, hm2]

/-- C3 amended, witness: a concrete page with only the multi-version tag and
a live summary-block signal classifies as `MULTI_VERSION_HUB`. -/
theorem c3_multiversion_tag_amended_witness :
    classify { c3pd with categories := ["Catégorie:Éditions multiples"] }
      ⟨wsSummaryDom, []⟩ "fr" ⟨[]⟩ = (PageType.MULTI_VERSION_HUB, "is_multiversion_cat") :=
  c3_multiversion_tag_amended _ _ _ _ (by decide) (by decide) (by decide)

/-- C4 counterexample: a page carrying the known disambiguation template
"homonymes" and a summary block is classified `POETIC_COLLECTION`:
`classify` performs no disambiguation detection at all, so such pages do
fall through to Poem/Collection classification. -/
theorem c4_disambiguation_counterexample :
    classify c4pd ⟨wsSummaryDom, []⟩ "fr" c4wikicode =
      (PageType.POETIC_COLLECTION, "has_ws_summary") := by decide

/-- C4 (amended): `classify` never inspects the wikitext templates (its
result is invariant under any change of the parsed wikicode, disambiguation
templates included) and never returns `DISAMBIGUATION`; pages carrying
disambiguation templates are classified purely by namespace, category and
structural signals, and so can be returned as Poem/Collection/Hub. -/
theorem c4_no_disambiguation_detection (pd : PageData) (soup : Markup) (lang : String)
    (wc wc' : Wikicode) :
    classify pd soup lang wc = classify pd soup lang wc'
    ∧ (classify pd soup lang wc).1 ≠ PageType.DISAMBIGUATION := by
  refine ⟨rfl, ?_⟩
  unfold classify
  split
  · split <;> simp
  · dsimp only
    split_ifs <;> simp

/-- C5 counterexample: inserting two records with the same page identity
leaves the index holding the FIRST record, not the later-arriving one —
`add_scraped_data_sync` uses `INSERT OR IGNORE`, not insert-or-replace. -/
theorem c5_insert_keeps_first_counterexample :
    addScrapedPoemSync (addScrapedPoemSync [] c5row1) c5row2 = [c5row1]
    ∧ c5row1 ≠ c5row2
    ∧ lookupPoem (addScrapedPoemSync (addScrapedPoemSync [] c5row1) c5row2) 1 = some c5row1 := by
  decide

/-- C5 (amended): the Sink's index insert is insert-or-IGNORE keyed by page
identity: re-inserting any record with an already-present identity leaves
the table unchanged (duplicate emission is idempotent, first-write-wins),
and a record inserted into a table free of its identity is the one found
afterwards. -/
theorem c5_insert_or_ignore_first_write_wins (tbl : List PoemRow) (r r' : PoemRow)
    (hk : r'.page_id = r.page_id) :
    addScrapedPoemSync (addScrapedPoemSync tbl r) r' = addScrapedPoemSync tbl r
    ∧ ((tbl.any (fun row => row.page_id = r.page_id)) = false →
        lookupPoem (addScrapedPoemSync (addScrapedPoemSync tbl r) r') r.page_id = some r) := by
  by_cases hmem : tbl.any (fun row => row.page_id = r.page_id) = true
  · have h1 : addScrapedPoemSync tbl r = tbl := by simp [addScrapedPoemSync, hmem]
    have h2 : addScrapedPoemSync tbl r' = tbl := by
      have hm : tbl.any (fun row => row.page_id = r'.page_id) = true := by
        rw [hk]; exact hmem
      simp [addScrapedPoemSync, hm]
    refine ⟨by rw [h1, h2], ?_⟩
    intro hfresh
    simp [hfresh] at hmem
  · have h1 : addScrapedPoemSync tbl r = tbl ++ [r] := by simp [addScrapedPoemSync, hmem]
    have h2 : (tbl ++ [r]).any (fun row => row.page_id = r'.page_id) = true :=
      List.any_eq_true.mpr ⟨r, by simp, by simp [hk]⟩
    have h3 : addScrapedPoemSync (tbl ++ [r]) r' = tbl ++ [r] := by
      simp [addScrapedPoemSync, h2]
    refine ⟨by rw [h1, h3], ?_⟩
    intro _
    have hfind : tbl.find? (fun row => decide (row.page_id = r.page_id)) = none := by
      rw [List.find?_eq_none]
      intro x hx hdec
      exact absurd (List.any_eq_true.mpr ⟨x, hx, hdec⟩) hmem
    rw [h1, h3]
    simp [lookupPoem, List.find?_append, hfind]

/-- C5 amended, witness: concrete instantiation of the idempotent
first-write-wins property. -/
theorem c5_first_write_wins_witness :
    addScrapedPoemSync (addScrapedPoemSync [] c5row1) c5row2 = addScrapedPoemSync [] c5row1
    ∧ lookupPoem (addScrapedPoemSync (addScrapedPoemSync [] c5row1) c5row2) c5row1.page_id
        = some c5row1 := by
  have h := c5_insert_or_ignore_first_write_wins [] c5row1 c5row2 (by decide)
  exact ⟨h.1, h.2 (by decide)⟩

/-- Helper for C2: once an identity is in the scheduled-or-processed set, no
later `submit_if_new` call for it returns true. -/
theorem countTrue_zero_of_mem (items : List QueuePayload) (pid : Nat) :
    ∀ st : OrchState, pid ∈ st.scheduled_or_processed_ids →
    ((runSubmits st items).2.zip items).countP
        (fun bi => bi.1 && bi.2.page_info.pageid == pid) = 0 := by
  induction items with
  | nil => intro st _; simp [runSubmits]
  | cons it rest ih =>
      intro st h
      by_cases h2 : st.scheduled_or_processed_ids.contains it.page_info.pageid = true
      · simp only [runSubmits, queuePageIfNew, awaitQueuePut, h2, if_pos]
        simp only [List.zip_cons_cons, List.countP_cons]
        simp only [Bool.false_and, if_neg]
        simp [ih st h]
      · have hne : it.page_info.pageid ≠ pid := by
          intro he
          subst he
          exact h2 (List.elem_eq_true_of_mem h)
        simp only [runSubmits, queuePageIfNew, awaitQueuePut, h2, if_neg]
        simp only [List.zip_cons_cons, List.countP_cons]
        have hst1 : pid ∈ (⟨it.page_info.pageid :: st.scheduled_or_processed_ids,
            st.pageQueue ++ [it], st.writerQueue,
            st.skipped_counter⟩ : OrchState).scheduled_or_processed_ids :=
          List.mem_cons_of_mem _ h
        simp [hne, ih _ hst1]

/-- Helper for C2: for a fresh identity, the count of true-returning
`submit_if_new` calls over any call sequence is 1 when the identity occurs
in the sequence and 0 otherwise. -/
theorem countTrue_of_not_mem (items : List QueuePayload) (pid : Nat) :
    ∀ st : OrchState, pid ∉ st.scheduled_or_processed_ids →
    ((runSubmits st items).2.zip items).countP
        (fun bi => bi.1 && bi.2.page_info.pageid == pid)
      = if items.any (fun x => x.page_info.pageid == pid) then 1 else 0 := by
  induction items with
  | nil => intro st _; simp [runSubmits]
  | cons it rest ih =>
      intro st h
      by_cases h2 : st.scheduled_or_processed_ids.contains it.page_info.pageid = true
      · have hne : it.page_info.pageid ≠ pid := by
          intro he
          subst he
          exact h (by simpa using h2)
        simp only [runSubmits, queuePageIfNew, awaitQueuePut, h2, if_pos]
        simp only [List.zip_cons_cons, List.countP_cons]
        simp [hne, ih st h]
      · by_cases heq : it.page_info.pageid = pid
        · subst heq
          simp only [runSubmits, queuePageIfNew, awaitQueuePut, h2, if_neg]
          simp only [List.zip_cons_cons, List.countP_cons]
          have hmem1 : it.page_info.pageid ∈
              (⟨it.page_info.pageid :: st.scheduled_or_processed_ids,
                st.pageQueue ++ [it], st.writerQueue,
                st.skipped_counter⟩ : OrchState).scheduled_or_processed_ids :=
            List.mem_cons_self _ _
          simp [countTrue_zero_of_mem rest _ _ hmem1]
        · simp only [runSubmits, queuePageIfNew, awaitQueuePut, h2, if_neg]
          simp only [List.zip_cons_cons, List.countP_cons]
          have hst1 : pid ∉ (⟨it.page_info.pageid :: st.scheduled_or_processed_ids,
              st.pageQueue ++ [it], st.writerQueue,
              st.skipped_counter⟩ : OrchState).scheduled_or_processed_ids := by
            simp only [List.mem_cons]
            rintro (rfl | hm)
            · exact heq rfl
            · exact h hm
          simp [heq, ih _ hst1]

/-- A minimal work item used by the C2 witness. -/
def c2payload (pid : Nat) : QueuePayload :=
  { page_info := ⟨pid, "P"⟩, parent_title := "Cat", author_cat := "Cat" }

/-- A call sequence with a repeated identity. -/
def c2items : List QueuePayload := [c2payload 1, c2payload 1, c2payload 2]

/-- C2: `submit_if_new` checks the identity against the
scheduled-or-processed set and, if absent, adds it and enqueues the item
returning true, while if present it returns false leaving the state
untouched; consequently, over any sequence of calls (any cooperative
interleaving linearises to such a sequence), exactly one call per distinct
fresh identity returns true. -/
theorem c2_submit_if_new_exactly_once (st : OrchState) (it : QueuePayload)
    (items : List QueuePayload) (pid : Nat)
    (h : pid ∉ st.scheduled_or_processed_ids) :
    (it.page_info.pageid ∉ st.scheduled_or_processed_ids →
        queuePageIfNew .pageQ st it =
          ({ st with
              scheduled_or_processed_ids :=
                it.page_info.pageid :: st.scheduled_or_processed_ids,
              pageQueue := st.pageQueue ++ [it] }, .ok true))
    ∧ (it.page_info.pageid ∈ st.scheduled_or_processed_ids →
        queuePageIfNew .pageQ st it = (st, .ok false))
    ∧ ((runSubmits st items).2.zip items).countP
          (fun bi => bi.1 && bi.2.page_info.pageid == pid)
        = if items.any (fun x => x.page_info.pageid == pid) then 1 else 0 := by
  refine ⟨?_, ?_, countTrue_of_not_mem items pid st h⟩
  · intro hn
    unfold queuePageIfNew awaitQueuePut
    rw [if_neg (by simpa using hn)]
  · intro hm
    have h2 : st.scheduled_or_processed_ids.contains it.page_info.pageid = true :=
      List.elem_eq_true_of_mem hm
    unfold queuePageIfNew
    rw [if_pos h2]

/-- C2 witness: a fresh identity is enqueued exactly once over a sequence
with a repeated identity. -/
theorem c2_submit_if_new_witness :
    queuePageIfNew .pageQ {} (c2payload 1) =
      ({ scheduled_or_processed_ids := [1], pageQueue := [c2payload 1],
         writerQueue := [], skipped_counter := 0 }, .ok true)
    ∧ ((runSubmits {} c2items).2.zip c2items).countP
        (fun bi => bi.1 && bi.2.page_info.pageid == 1) = 1 := by
  have h := c2_submit_if_new_exactly_once {} (c2payload 1) c2items 1 (by simp)
  constructor
  · simpa using h.1 (by simp)
  · simpa using h.2.2

/-- Helper for C10: the unique-title pass returns a sublist of its input. -/
theorem dedupKeepFirst_sublist :
    ∀ (l : List (String × PageType)) (seen : List String),
      (dedupKeepFirst l seen).Sublist l := by
  intro l
  induction l with
  | nil => intro seen; simp [dedupKeepFirst]
  | cons a rest ih =>
      intro seen
      obtain ⟨t, ty⟩ := a
      simp only [dedupKeepFirst]
      by_cases h : seen.contains t = true
      · rw [if_pos h]
        exact (ih seen).cons _
      · rw [if_neg h]
        exact (ih (t :: seen)).cons₂ _

/-- Helper for C10: no emitted title is in the already-seen set. -/
theorem dedupKeepFirst_fst_not_seen :
    ∀ (l : List (String × PageType)) (seen : List String) (x : String × PageType),
      x ∈ dedupKeepFirst l seen → x.1 ∉ seen := by
  intro l
  induction l with
  | nil => intro seen x hx; simp [dedupKeepFirst] at hx
  | cons a rest ih =>
      intro seen x hx
      obtain ⟨t, ty⟩ := a
      simp only [dedupKeepFirst] at hx
      by_cases h : seen.contains t = true
      · rw [if_pos h] at hx
        exact ih seen x hx
      · rw [if_neg h] at hx
        rcases List.mem_cons.mp hx with rfl | hx'
        · simpa using h
        · intro hmem
          exact ih (t :: seen) x hx' (List.mem_cons_of_mem _ hmem)

/-- Helper for C10: emitted titles are pairwise distinct. -/
theorem dedupKeepFirst_nodup :
    ∀ (l : List (String × PageType)) (seen : List String),
      ((dedupKeepFirst l seen).map Prod.fst).Nodup := by
  intro l
  induction l with
  | nil => intro seen; simp [dedupKeepFirst]
  | cons a rest ih =>
      intro seen
      obtain ⟨t, ty⟩ := a
      simp only [dedupKeepFirst]
      by_cases h : seen.contains t = true
      · rw [if_pos h]
        exact ih seen
      · rw [if_neg h]
        simp only [List.map_cons, List.nodup_cons]
        refine ⟨?_, ih (t :: seen)⟩
        intro hmem
        obtain ⟨x, hx, hfst⟩ := List.mem_map.mp hmem
        exact dedupKeepFirst_fst_not_seen rest (t :: seen) x hx
          (hfst ▸ List.mem_cons_self t seen)

/-- Helper for C10: for a title not yet seen, the first matching item of the
deduplicated list is exactly the first matching item of the input list. -/
theorem dedupKeepFirst_find? :
    ∀ (l : List (String × PageType)) (seen : List String) (t : String), t ∉ seen →
      (dedupKeepFirst l seen).find? (fun p => p.1 == t) = l.find? (fun p => p.1 == t) := by
  intro l
  induction l with
  | nil => intro seen t _; simp [dedupKeepFirst]
  | cons a rest ih =>
      intro seen t ht
      obtain ⟨s, ty⟩ := a
      simp only [dedupKeepFirst]
      by_cases h : seen.contains s = true
      · have hne : s ≠ t := fun he => ht (he ▸ (show s ∈ seen by simpa using h))
        rw [if_pos h]
        rw [List.find?_cons_of_neg _ (by simp [hne])]
        exact ih seen t ht
      · by_cases heq : s = t
        · subst heq
          rw [if_neg h]
          rw [List.find?_cons_of_pos _ (by simp), List.find?_cons_of_pos _ (by simp)]
        · rw [if_neg h]
          rw [List.find?_cons_of_neg _ (by simp [heq]),
              List.find?_cons_of_neg _ (by simp [heq])]
          refine ih (s :: seen) t ?_
          simp only [List.mem_cons]
          rintro (rfl | hm)
          · exact heq rfl
          · exact ht hm

/-- C10: the list returned by `extract_ordered_collection_links` has
pairwise-distinct titles, is a subsequence of the pre-deduplication ordered
items, and for every title it retains exactly the first item (in document
order) bearing that title — any later item with an already-emitted title,
poem link or section heading alike, is dropped. -/
theorem c10_first_occurrence_only (selfTitle lang : String) (soupDom : Node) :
    ((extract_ordered_collection_links selfTitle lang soupDom).map Prod.fst).Nodup
    ∧ (extract_ordered_collection_links selfTitle lang soupDom).Sublist
        (extractOrderedRaw selfTitle (internalPfxsToIgnore lang) soupDom)
    ∧ ∀ t, (extract_ordered_collection_links selfTitle lang soupDom).find?
          (fun p => p.1 == t)
        = (extractOrderedRaw selfTitle (internalPfxsToIgnore lang) soupDom).find?
          (fun p => p.1 == t) :=
  ⟨dedupKeepFirst_nodup _ _, dedupKeepFirst_sublist _ _,
   fun t => dedupKeepFirst_find? _ _ t (by simp)⟩

/-- Helper for C9: at least one attempt is always made. -/
theorem retryFrom_attempts_pos {α : Type} (behavior : Nat → AttemptOutcome α)
    (attempt rem : Nat) : 1 ≤ (retryFrom behavior attempt rem).2.1 := by
  cases rem with
  | zero => cases hb : behavior attempt <;> simp [retryFrom, hb]
  | succ r =>
      cases hb : behavior attempt with
      | ok a => simp [retryFrom, hb]
      | exc m =>
          rcases hr : retryFrom behavior (attempt + 1) r with ⟨res, n, ds⟩
          simp [retryFrom, hb, hr]

/-- Helper for C9: the retry loop unrolled from an arbitrary attempt makes at
most `rem + 1` attempts, sleeps exactly the exponential backoff delays, and
returns `none` after exhaustion. -/
theorem retryFrom_spec {α : Type} (behavior : Nat → AttemptOutcome α) :
    ∀ (rem attempt : Nat),
      (retryFrom behavior attempt rem).2.1 ≤ rem + 1
      ∧ (retryFrom behavior attempt rem).2.2
          = (List.range ((retryFrom behavior attempt rem).2.1 - 1)).map
              (fun i => backoffBase * 2 ^ (attempt + i))
      ∧ ((∀ i, attempt ≤ i → i ≤ attempt + rem → ∃ m, behavior i = .exc m) →
          (retryFrom behavior attempt rem).1 = none
          ∧ (retryFrom behavior attempt rem).2.1 = rem + 1) := by
  intro rem
  induction rem with
  | zero =>
      intro attempt
      cases hb : behavior attempt with
      | ok a =>
          refine ⟨by simp [retryFrom, hb], by simp [retryFrom, hb], fun hall => ?_⟩
          obtain ⟨m, hm⟩ := hall attempt le_rfl (by simp)
          rw [hb] at hm; cases hm
      | exc m =>
          exact ⟨by simp [retryFrom, hb], by simp [retryFrom, hb],
            fun _ => by simp [retryFrom, hb]⟩
  | succ r ih =>
      intro attempt
      cases hb : behavior attempt with
      | ok a =>
          refine ⟨by simp [retryFrom, hb], by simp [retryFrom, hb], fun hall => ?_⟩
          obtain ⟨m, hm⟩ := hall attempt le_rfl (by omega)
          rw [hb] at hm; cases hm
      | exc m =>
          obtain ⟨ih1, ih2, ih3⟩ := ih (attempt + 1)
          have hpos := retryFrom_attempts_pos behavior (attempt + 1) r
          rcases hr : retryFrom behavior (attempt + 1) r with ⟨res, n, ds⟩
          rw [hr] at ih1 ih2 ih3 hpos
          simp only at ih1 ih2 ih3 hpos
          have hstep : retryFrom behavior attempt (r + 1)
              = (res, n + 1, backoffBase * 2 ^ attempt :: ds) := by
            simp [retryFrom, hb, hr]
          refine ⟨?_, ?_, ?_⟩
          · rw [hstep]; simpa using by omega
          · rw [hstep]
            simp only
            rw [ih2]
            have hsub : n + 1 - 1 = (n - 1) + 1 := by omega
            rw [hsub, List.range_succ_eq_map, List.map_cons, List.map_map,
              Nat.add_zero]
            congr 1
            apply List.map_congr_left
            intro a _
            simp only [Function.comp_apply, Nat.succ_eq_add_one]
            congr 1
            congr 1
            omega
          · intro hall
            have h3 := ih3 (fun i h1 h2 => hall i (by omega) (by omega))
            rw [hstep]
            exact ⟨h3.1, by simp [h3.2]⟩

/-- C9: `_retry_call` performs at most `_net_retries + 1 = 3` attempts, the
delays slept between attempts are exactly the exponentially growing backoff
series `0.5 * 2^i`, and when every attempt raises, the wrapper returns the
typed empty result `none` instead of raising, after exactly 3 attempts. -/
theorem c9_retry_bounded (behavior : Nat → AttemptOutcome Nat) :
    (retryCall behavior).2.1 ≤ netRetries + 1
    ∧ (retryCall behavior).2.2
        = (List.range ((retryCall behavior).2.1 - 1)).map (fun i => backoffBase * 2 ^ i)
    ∧ ((∀ i, i ≤ netRetries → ∃ m, behavior i = .exc m) →
        (retryCall behavior).1 = none ∧ (retryCall behavior).2.1 = netRetries + 1) := by
  have h := retryFrom_spec behavior netRetries 0
  refine ⟨h.1, ?_, fun hall => h.2.2 (fun i _ h2 => hall i (by omega))⟩
  simpa using h.2.1

/-- C9 witness: an operation failing on every attempt returns `none` after
exactly `netRetries + 1` attempts. -/
theorem c9_retry_witness :
    (retryCall (fun _ => AttemptOutcome.exc "timeout") : Option Nat × Nat × List ℚ).1 = none
    ∧ (retryCall (fun _ => AttemptOutcome.exc "timeout")
        : Option Nat × Nat × List ℚ).2.1 = netRetries + 1 :=
  (c9_retry_bounded (fun _ => AttemptOutcome.exc "timeout")).2.2
    (fun _ _ => ⟨"timeout", rfl⟩)

/-- The content-shape failure condition of the spec: no verse/stanza
structure is present in the page markup, or every found stanza is empty
after verse cleaning. -/
def parseFailCond (m : Markup) : Prop :=
  m.poemBlocks = [] ∨ ∀ b ∈ m.poemBlocks, ∀ st ∈ b.stanzas, cleanStanza st = []

/-- Helper for C7: the structure locator returns `None` exactly on the
content-shape failure condition. -/
theorem extract_none_iff (m : Markup) :
    PoemParser.extract_poem_structure m = none ↔ parseFailCond m := by
  unfold PoemParser.extract_poem_structure parseFailCond
  by_cases hb : m.poemBlocks.isEmpty
  · have hbe : m.poemBlocks = [] := List.isEmpty_iff.mp hb
    simp [hb, hbe]
  · have hbe : m.poemBlocks ≠ [] := fun he => hb (by simp [he])
    rw [if_neg hb]
    simp only [hbe, false_or]
    constructor
    · intro hif
      by_cases ha : (m.poemBlocks.flatMap
          (fun b => (b.stanzas.map cleanStanza).filter (fun st => st ≠ []))).isEmpty
      · intro b hbmem st hst
        have hall : ∀ b ∈ m.poemBlocks,
            (b.stanzas.map cleanStanza).filter (fun s => s ≠ []) = [] := by
          intro b' hb'
          have := List.isEmpty_iff.mp ha
          rw [List.flatMap_eq_nil_iff] at this
          exact this b' hb'
        have hf := hall b hbmem
        rw [List.filter_eq_nil_iff] at hf
        by_contra hne
        exact hf (cleanStanza st) (List.mem_map_of_mem _ hst) (by simpa using hne)
      · rw [if_neg ha] at hif
        cases hif
    · intro hall
      have ha : (m.poemBlocks.flatMap
          (fun b => (b.stanzas.map cleanStanza).filter (fun st => st ≠ []))).isEmpty := by
        rw [List.isEmpty_iff, List.flatMap_eq_nil_iff]
        intro b hbmem
        rw [List.filter_eq_nil_iff]
        intro x hx
        obtain ⟨st, hst, rfl⟩ := List.mem_map.mp hx
        simpa using hall b hbmem st hst
      rw [if_pos ha]

/-- Helper for C7: a successfully located structure never has an empty
stanza list. -/
theorem extract_some_stanzas_ne (m : Markup) (s : PoemStructure)
    (h : PoemParser.extract_poem_structure m = some s) : ¬s.stanzas.isEmpty := by
  unfold PoemParser.extract_poem_structure at h
  by_cases hb : m.poemBlocks.isEmpty
  · simp [hb] at h
  · rw [if_neg hb] at h
    by_cases ha : (m.poemBlocks.flatMap
        (fun b => (b.stanzas.map cleanStanza).filter (fun st => st ≠ []))).isEmpty
    · rw [if_pos ha] at h; cases h
    · rw [if_neg ha] at h
      cases h
      simpa using ha

/-- C7: for any page with a revision, `PoemProcessor.process` raises
`PoemParsingError` if and only if no verse/stanza structure is found in the
markup or all found stanzas are empty; on that failure the worker's POEM
branch only increments the skip counter (nothing emitted, nothing else
touched, no exception escapes), and otherwise the extracted record is handed
to the writer. -/
theorem c7_parse_failure_recoverable (pd : PageData) (soup : Markup) (lang : String)
    (wc : Wikicode) (hub : Option HubInfo) (cc : Option Collection) (ord : Option Nat)
    (sec : Option String) (isf : Bool) (now : Nat) (st : OrchState)
    (h : pd.revisions ≠ []) :
    ((∃ m, PoemProcessor.process pd soup lang wc hub cc ord sec isf now
        = .error (.poemParsingError m)) ↔ parseFailCond soup)
    ∧ (parseFailCond soup →
        poemBranch pd soup lang wc hub cc ord sec isf now st
          = .ok { st with skipped_counter := st.skipped_counter + 1 })
    ∧ (¬parseFailCond soup →
        ∃ p, PoemProcessor.process pd soup lang wc hub cc ord sec isf now = .ok p
          ∧ poemBranch pd soup lang wc hub cc ord sec isf now st
            = .ok { st with writerQueue := st.writerQueue ++ [.poem p] }) := by
  obtain ⟨rev0, rs, hrev⟩ : ∃ rev0 rs, pd.revisions = rev0 :: rs := by
    cases hr : pd.revisions with
    | nil => exact absurd hr h
    | cons a l => exact ⟨a, l, rfl⟩
  by_cases hfail : parseFailCond soup
  · have hex : PoemParser.extract_poem_structure soup = none := (extract_none_iff soup).mpr hfail
    have hproc : PoemProcessor.process pd soup lang wc hub cc ord sec isf now
        = .error (.poemParsingError
            "Aucune structure de poeme trouvee dans le HTML ou contenu vide.") := by
      unfold PoemProcessor.process
      rw [hrev]
      simp only [hex]
    refine ⟨⟨fun _ => hfail, fun _ => ⟨_, hproc⟩⟩, fun _ => ?_, fun hn => absurd hfail hn⟩
    unfold poemBranch
    rw [hproc]
  · have hex : PoemParser.extract_poem_structure soup ≠ none := by
      intro he
      exact hfail ((extract_none_iff soup).mp he)
    obtain ⟨s, hs⟩ : ∃ s, PoemParser.extract_poem_structure soup = some s := by
      cases he : PoemParser.extract_poem_structure soup with
      | none => exact absurd he hex
      | some s => exact ⟨s, rfl⟩
    have hne := extract_some_stanzas_ne soup s hs
    have hproc : ∃ p, PoemProcessor.process pd soup lang wc hub cc ord sec isf now
        = .ok p := by
      unfold PoemProcessor.process
      rw [hrev]
      simp only [hs]
      rw [if_neg hne]
      exact ⟨_, rfl⟩
    obtain ⟨p, hp⟩ := hproc
    refine ⟨⟨fun ⟨m, hm⟩ => ?_, fun hc => absurd hc hfail⟩, fun hc => absurd hc hfail,
      fun _ => ⟨p, hp, ?_⟩⟩
    · rw [hp] at hm; cases hm
    · unfold poemBranch
      rw [hp]

/-- A page with a revision whose rendered markup holds no poem block. -/
def c7pdFail : PageData where
  pageid := 50
  ns := 0
  title := "Pas un poeme"
  categories := []
  revisions := [⟨9, "texte"⟩]
  fullurl := none

def c7soupFail : Markup := ⟨tagN "[document]" [] [], []⟩

/-- C7 witness: the structureless page raises the recoverable
parse-failure signal. -/
theorem c7_parse_failure_witness :
    ∃ m, PoemProcessor.process c7pdFail c7soupFail "fr" ⟨[]⟩ none none none none false 0
      = .error (.poemParsingError m) :=
  (c7_parse_failure_recoverable c7pdFail c7soupFail "fr" ⟨[]⟩ none none none none false 0
      {} (by decide)).1.mpr (Or.inl rfl)

/-- C8: every record `PoemProcessor.process` returns has `hub_page_id`
populated — the hub's identity (and its title) when a hub context is
present, the poem's own page identity (with `hub_title = none`) for a
standalone poem. -/
theorem c8_hub_self_reference (pd : PageData) (soup : Markup) (lang : String)
    (wc : Wikicode) (hub : Option HubInfo) (cc : Option Collection) (ord : Option Nat)
    (sec : Option String) (isf : Bool) (now : Nat) (p : PoemSchema)
    (h : PoemProcessor.process pd soup lang wc hub cc ord sec isf now = .ok p) :
    p.hub_page_id = (match hub with | some hi => hi.page_id | none => pd.pageid)
    ∧ p.hub_title = hub.map (·.title) := by
  unfold PoemProcessor.process at h
  split at h
  · simp at h
  · split at h
    · simp at h
    · split at h
      · simp at h
      · simp only [Except.ok.injEq] at h
        subst h
        cases hub <;> simp

/-- A standalone poem page (no hub context). -/
def c8pd : PageData where
  pageid := 42
  ns := 0
  title := "Ode seule"
  categories := []
  revisions := [⟨11, "<poem>Vers un</poem>"⟩]
  fullurl := some "https://fr.wikisource.org/wiki/Ode_seule"

def c8soup : Markup := ⟨tagN "[document]" [] [], [⟨"<poem>", [["Vers un"]]⟩]⟩

/-- C8 witness: the standalone poem's record is self-referential
(`hub_page_id` is its own page id) with no hub title. -/
theorem c8_hub_self_reference_witness :
    ∃ p, PoemProcessor.process c8pd c8soup "fr" ⟨[]⟩ none none none none false 0 = .ok p
      ∧ p.hub_page_id = c8pd.pageid ∧ p.hub_title = none := by
  cases hp : PoemProcessor.process c8pd c8soup "fr" ⟨[]⟩ none none none none false 0 with
  | ok p =>
      have hc := c8_hub_self_reference c8pd c8soup "fr" ⟨[]⟩ none none none none false 0 p hp
      exact ⟨p, rfl, hc.1, hc.2⟩
  | error e =>
      have hok : (PoemProcessor.process c8pd c8soup "fr" ⟨[]⟩ none none none none
          false 0).toOption.isSome = true := by decide
      rw [hp] at hok
      simp [Except.toOption] at hok

end PoemScraper
